import Mathlib

/-!
Shallow embedding of `src/maaz/final_script.py` (resqio-backend-scripts):
a three-stage batch job that extracts JIRA tickets, archives them as a CSV
blob in Azure storage, and notifies a queue.  External collaborators (the
JIRA client, the Azure blob container, the Azure queue transport) are
modelled by explicit parameters: the tracker search result is an
`Except Unit (List Issue)` (error = the connection/auth/query exception),
the blob container is an association list from blob names to contents, and
the queue transport outcome is an `Option String` (the swallowed error).
-/

namespace ResqJira

/-! ## Data model: the shapes the script reads from the JIRA SDK -/

/-- One field-level change inside a changelog history entry
(`item.field`, `item.toString` in the script). -/
structure ChangeItem where
  field : String
  toString : String
deriving DecidableEq, Repr

/-- One changelog history entry (`history.author.displayName`,
`history.created`, `history.items`). -/
structure HistoryEntry where
  authorDisplayName : String
  created : String
  items : List ChangeItem
deriving DecidableEq, Repr

/-- One ticket comment (`comment.body`). -/
structure IssueComment where
  body : String
deriving DecidableEq, Repr

/-- One JIRA issue as the script reads it: summary and description are
`Option` because the SDK yields `None` for absent fields. -/
structure Issue where
  summary : Option String
  description : Option String
  comments : List IssueComment
  histories : List HistoryEntry
deriving DecidableEq, Repr

/-- The normalized record the extractor emits (the `issue_data` dict). -/
structure TicketRecord where
  channel_id : String
  title : String
  original_summary : String
  description : String
  entries : String
  resolved_by : String
  resolved_timestamp : String
deriving DecidableEq, Repr

/-! ## Model of `datetime.strptime(s, "%Y-%m-%dT%H:%M:%S.%f%z").timestamp()`
truncated to `int`, as line 112-119 of the script performs it.  The parser
accepts a 4-digit year, 1-2 digit month/day/hour/minute/second within the
ranges `datetime` accepts, a 1-6 digit fraction (right-padded to
microseconds), and a UTC offset written `+HHMM`, `-HHMM`, `+HH:MM`,
`-HH:MM` or `Z`; anything else fails, as `strptime` raises. -/

/-- Gregorian leap year, as `datetime` uses. -/
def isLeapYear (y : Int) : Bool :=
  (y % 4 == 0 && y % 100 != 0) || y % 400 == 0

/-- Days in a month, for `datetime`'s day-of-month validation. -/
def daysInMonth (y m : Int) : Int :=
  if m == 2 then (if isLeapYear y then 29 else 28)
  else if m == 4 || m == 6 || m == 9 || m == 11 then 30
  else 31

/-- Days since 1970-01-01 of the civil date y-m-d (proleptic Gregorian,
valid for y ≥ 1 as `datetime` requires). -/
def daysFromCivil (y m d : Int) : Int :=
  let y2 := if m ≤ 2 then y - 1 else y
  let era := y2 / 400
  let yoe := y2 - era * 400
  let mp := (m + 9) % 12
  let doy := (153 * mp + 2) / 5 + d - 1
  let doe := yoe * 365 + yoe / 4 - yoe / 100 + doy
  era * 146097 + doe - 719468

/-- Run of leading decimal digits, at most `n` of them (the fields of the
`strptime` format are fixed-width patterns, not unbounded runs). -/
def takeUpToDigits (n : Nat) (cs : List Char) : List Char × List Char :=
  match n, cs with
  | 0, rest => ([], rest)
  | _, [] => ([], [])
  | Nat.succ k, c :: rest =>
    if c.isDigit then
      let (ds, r) := takeUpToDigits k rest
      (c :: ds, r)
    else ([], c :: rest)

/-- Value of a digit run. -/
def digitsToNat (ds : List Char) : Nat :=
  ds.foldl (fun acc c => acc * 10 + (c.toNat - 48)) 0

/-- A numeric field of `lo`..`hi` digits whose value lies in
`minV`..`maxV`; yields the value and the rest of the input. -/
def parseNumField (lo hi minV maxV : Nat) (cs : List Char) :
    Option (Nat × List Char) :=
  let (ds, r) := takeUpToDigits hi cs
  if ds.length < lo then none
  else
    let v := digitsToNat ds
    if v < minV ∨ maxV < v then none else some (v, r)

/-- Consume one expected literal character. -/
def expectChar (c : Char) : List Char → Option (List Char)
  | [] => none
  | x :: r => if x = c then some r else none

/-- The `%z` field: `Z` or a sign, two-digit hours, optional colon,
two-digit minutes; yields the offset in seconds. -/
def parseOffset : List Char → Option (Int × List Char)
  | [] => none
  | c :: r =>
    if c = 'Z' then some (0, r)
    else if c = '+' ∨ c = '-' then
      match parseNumField 2 2 0 23 r with
      | none => none
      | some (hh, r2) =>
        let r3 := match r2 with
          | ':' :: t => t
          | other => other
        match parseNumField 2 2 0 59 r3 with
        | none => none
        | some (mm, r4) =>
          let secs : Int := (hh : Int) * 3600 + (mm : Int) * 60
          some (if c = '-' then -secs else secs, r4)
    else none

/-- A numeric field followed by one literal separator character. -/
def parseNumSep (lo hi minV maxV : Nat) (sep : Char) (cs : List Char) :
    Option (Nat × List Char) :=
  match parseNumField lo hi minV maxV cs with
  | none => none
  | some (v, r) =>
    match expectChar sep r with
    | none => none
    | some r2 => some (v, r2)

/-- The `%Y-%m-%dT` part: days since the epoch of the civil date, with
`datetime`'s range and day-of-month validation. -/
def parseDatePart (cs : List Char) : Option (Int × List Char) :=
  match parseNumSep 4 4 1 9999 '-' cs with
  | none => none
  | some (y, r1) =>
    match parseNumSep 1 2 1 12 '-' r1 with
    | none => none
    | some (m, r2) =>
      match parseNumSep 1 2 1 31 'T' r2 with
      | none => none
      | some (d, r3) =>
        if (d : Int) > daysInMonth (y : Int) (m : Int) then none
        else some (daysFromCivil (y : Int) (m : Int) (d : Int), r3)

/-- The `%H:%M:%S.` part: seconds since midnight. -/
def parseTimePart (cs : List Char) : Option (Int × List Char) :=
  match parseNumSep 1 2 0 23 ':' cs with
  | none => none
  | some (hh, r1) =>
    match parseNumSep 1 2 0 59 ':' r1 with
    | none => none
    | some (mi, r2) =>
      match parseNumSep 1 2 0 59 '.' r2 with
      | none => none
      | some (ss, r3) =>
        some ((hh : Int) * 3600 + (mi : Int) * 60 + (ss : Int), r3)

/-- The `%f` part: 1-6 digits, right-padded to microseconds. -/
def parseFracPart (cs : List Char) : Option (Nat × List Char) :=
  match takeUpToDigits 6 cs with
  | (fds, r) =>
    if fds.length < 1 then none
    else some (digitsToNat fds * 10 ^ (6 - fds.length), r)

/-- `int(datetime.strptime(s, "%Y-%m-%dT%H:%M:%S.%f%z").timestamp())`:
`none` exactly when `strptime`/`datetime` raises. -/
def pyStrptimeEpoch (s : String) : Option Int :=
  match parseDatePart s.data with
  | none => none
  | some (days, r1) =>
    match parseTimePart r1 with
    | none => none
    | some (tod, r2) =>
      match parseFracPart r2 with
      | none => none
      | some (micro, r3) =>
        match parseOffset r3 with
        | none => none
        | some (off, r4) =>
          if r4 ≠ [] then none
          else
            let secs : Int := days * 86400 + tod - off
            some (if secs < 0 then (if micro = 0 then secs else secs + 1) else secs)

/-! ## Extractor: `fetch_jira_issues` (lines 64-136 of the script).
Credentials, JQL construction and the capped `search_issues` call are
external I/O; the tracker's answer is the `Except Unit (List Issue)`
parameter (`.error` = the SDK raised before any issue was returned). -/

/-- Python's `str.lower()` on the status values the script compares
(ASCII lowering, as `item.toString.lower()` performs on them). -/
def pyLower (s : String) : String :=
  ⟨s.data.map Char.toLower⟩

/-- The payloads the script's functions return: an `{"error": msg}` dict,
the list of extracted records, or the archiver's
`{"success": True, "base_folder": f}` dict. -/
inductive Payload where
  | error : String → Payload
  | records : List TicketRecord → Payload
  | success : String → Payload
deriving DecidableEq, Repr

/-- The comment loop (lines 89-96): each comment appended as
`"# Entry {i}: {body}\n"` with `i` counting from `start`. -/
def concatCommentsFrom (start : Nat) : List IssueComment → String
  | [] => ""
  | c :: rest =>
    "# Entry " ++ Nat.repr start ++ ": " ++ c.body ++ "\n"
      ++ concatCommentsFrom (start + 1) rest

/-- `concatenated_comments` for a ticket: the loop starting at 1. -/
def concatComments (comments : List IssueComment) : String :=
  concatCommentsFrom 1 comments

/-- The inner loop over `history.items` (lines 102-107): the first item
whose `field` is `"status"`, at which the inner loop breaks. -/
def scanItems : List ChangeItem → Option ChangeItem
  | [] => none
  | item :: rest =>
    if item.field = "status" then some item else scanItems rest

/-- The outer loop over `issue.changelog.histories` (lines 101-110):
stops at the first history entry containing a status-field change
(`is_status_found` breaks the outer loop); `resolved_by` and the raw
`resolved_timestamp` are assigned only when that change's new value
lowers to `"done"`. -/
def resolutionScan : List HistoryEntry → String × String
  | [] => ("", "")
  | history :: rest =>
    match scanItems history.items with
    | some item =>
      if pyLower item.toString = "done" then
        (history.authorDisplayName, history.created)
      else ("", "")
    | none => resolutionScan rest

/-- One `issue_data` dict (lines 87-132): `none` when the timestamp
conversion at lines 112-119 raises (which the enclosing `try` turns into
the generic 401 failure). -/
def buildRecord (issue : Issue) : Option TicketRecord :=
  let concatenated_comments := concatComments issue.comments
  let resolved := resolutionScan issue.histories
  let converted : Option String :=
    if resolved.2 ≠ "" then
      match pyStrptimeEpoch resolved.2 with
      | some t => some (Int.repr t)
      | none => none
    else some resolved.2
  match converted with
  | none => none
  | some resolved_timestamp =>
    some
      { channel_id := "jira"
        title := issue.summary.getD ""
        original_summary := ""
        description := issue.description.getD ""
        entries := concatenated_comments
        resolved_by := resolved.1
        resolved_timestamp := resolved_timestamp }

/-- The body of `fetch_jira_issues` as a result: the failure branches
(the generic except at 135-136 and the empty-result check at 82-83) or
the record list. -/
def fetchCore (search : Except Unit (List Issue)) :
    Except (String × Nat) (List TicketRecord) :=
  match search with
  | .error _ => .error ("Unable to login to JIRA", 401)
  | .ok issues =>
    if issues.length = 0 then .error ("No tickets found", 404)
    else
      match issues.mapM buildRecord with
      | some issues_data => .ok issues_data
      | none => .error ("Unable to login to JIRA", 401)

/-- `fetch_jira_issues`'s returned `(payload, status_code)` pair. -/
def fetch_jira_issues (search : Except Unit (List Issue)) : Payload × Nat :=
  match fetchCore search with
  | .error (msg, code) => (.error msg, code)
  | .ok issues_data => (.records issues_data, 200)

/-! ## Archiver: `upload_csv_to_azure` (lines 14-60).
The Azure container is an association list from blob names to contents;
`upload_blob(csv_content, overwrite=False)` is a put-if-absent: on an
occupied name the SDK raises `ResourceExistsError` ("The specified blob
already exists."), which the script's `except` maps through its
`"Authentication" in str(e)` test. -/

/-- The blob container's state. -/
def BlobStore := List (String × String)

/-- Blob lookup by name. -/
def lookupBlob : BlobStore → String → Option String
  | [], _ => none
  | (name, content) :: rest, q =>
    if q = name then some content else lookupBlob rest q

/-- A completed upload. -/
def insertBlob (store : BlobStore) (name content : String) : BlobStore :=
  (name, content) :: store

/-- `pat` begins the character list `s`. -/
def startsWithChars : List Char → List Char → Bool
  | [], _ => true
  | _ :: _, [] => false
  | p :: ps, c :: cs => p == c && startsWithChars ps cs

/-- `pat` occurs somewhere in the character list. -/
def containsChars (pat : List Char) : List Char → Bool
  | [] => startsWithChars pat []
  | c :: cs => startsWithChars pat (c :: cs) || containsChars pat cs

/-- Python's `"pat" in s` membership test. -/
def pyInStr (pat s : String) : Bool :=
  containsChars pat.data s.data

/-- The `except` branch of `upload_csv_to_azure` (lines 53-60): the error
payload chosen by substring-matching `"Authentication"` in the exception
text. -/
def azureExceptPayload (e : String) : Payload :=
  .error
    (if pyInStr "Authentication" e then "Azure permissions issue"
     else "New file cannot be created in Azure")

/-- Python `csv.writer` field quoting (QUOTE_MINIMAL): a field holding the
delimiter, the quote character or a line-terminator character is wrapped
in quotes with embedded quotes doubled. -/
def escapeQuotes : List Char → List Char
  | [] => []
  | c :: rest =>
    if c = '"' then c :: c :: escapeQuotes rest else c :: escapeQuotes rest

/-- One rendered CSV field. -/
def csvField (s : String) : String :=
  if s.data.any (fun c => c == ',' || c == '"' || c == '\n' || c == '\r')
  then "\"" ++ (⟨escapeQuotes s.data⟩ : String) ++ "\""
  else s

/-- One `writer.writerow(...)` call: comma-joined fields plus the
writer's default `\r\n` terminator. -/
def csvRowString (row : List String) : String :=
  String.intercalate "," (row.map csvField) ++ "\r\n"

/-- The fixed `columns` list (lines 35-43). -/
def csvColumns : List String :=
  ["channel_id", "title", "original_summary", "description", "entries",
   "resolved_by", "resolved_timestamp"]

/-- `[item[col] for col in columns]` for one record. -/
def recordCells (r : TicketRecord) : List String :=
  [r.channel_id, r.title, r.original_summary, r.description, r.entries,
   r.resolved_by, r.resolved_timestamp]

/-- `csv_buffer.getvalue()`: the header row then one row per record. -/
def csvContent (csv_data : List TicketRecord) : String :=
  csvRowString csvColumns
    ++ String.join (csv_data.map (fun item => csvRowString (recordCells item)))

/-- The computed blob name
`{business_id}/interactions/incidents/jira/request-{business_id}-{agent_id}-{timestamp}.csv`. -/
def blobName (business_id timestamp agent_id : String) : String :=
  business_id ++ "/interactions/incidents/jira"
    ++ "/request-" ++ business_id ++ "-" ++ agent_id ++ "-" ++ timestamp ++ ".csv"

/-- `upload_csv_to_azure`: the `(payload, status_code)` pair and the
container afterwards. -/
def upload_csv_to_azure (store : BlobStore) (business_id : String)
    (csv_data : List TicketRecord) (timestamp agent_id : String) :
    (Payload × Nat) × BlobStore :=
  let base_folder := business_id ++ "/interactions/incidents/jira"
  let name := blobName business_id timestamp agent_id
  let csv_content := csvContent csv_data
  match lookupBlob store name with
  | some _ =>
    ((azureExceptPayload "The specified blob already exists.", 500), store)
  | none => ((.success base_folder, 200), insertBlob store name csv_content)

/-! ## Notifier and orchestrator: `send_message_to_queue` (139-157) and
`process_issues` (160-198).  The queue transport's outcome is an
`Option String`: `some e` when `send_message` raises `e`, which the
script only prints. -/

/-- The message dict built at lines 187-196. -/
structure QueueMessage where
  interaction_types : List String
  channels : List String
  org_id : String
  request_id : String
  request_mode : List String
  requested_features : List String
  start_date : String
  end_date : String
deriving DecidableEq, Repr

/-- `send_message_to_queue`: the attempt is recorded with the transport's
outcome; a raised error is caught and printed, never propagated, and the
function returns `None` to its caller either way. -/
def send_message_to_queue (transportError : Option String)
    (message : QueueMessage) : QueueMessage × Option String :=
  (message, transportError)

/-- `process_issues`: returns the `(payload, status_code)` pair handed
back to `main`, the blob container afterwards, and the list of queue-send
attempts (each with the transport outcome the notifier swallowed). -/
def process_issues (search : Except Unit (List Issue)) (store : BlobStore)
    (transportError : Option String) (total_days : Nat) (now : Int)
    (business_id timestamp agent_id : String) :
    (Payload × Nat) × BlobStore × List (QueueMessage × Option String) :=
  let seconds_in_a_day : Int := 86400
  let total_days_seconds : Int := (total_days : Int) * seconds_in_a_day
  let end_date : Int := now
  let start_date : Int := end_date - total_days_seconds
  match fetchCore search with
  | .error (msg, code) => ((.error msg, code), store, [])
  | .ok jira_issues =>
    match upload_csv_to_azure store business_id jira_issues timestamp agent_id with
    | ((response, status_code), store2) =>
      if status_code = 200 then
        let message : QueueMessage :=
          { interaction_types := ["incidents"]
            channels := ["jira"]
            org_id := business_id
            request_id := agent_id ++ "-" ++ timestamp
            request_mode := ["historical"]
            requested_features := ["topic-classification"]
            start_date := Int.repr start_date
            end_date := Int.repr end_date }
        ((response, status_code), store2,
          [send_message_to_queue transportError message])
      else ((response, status_code), store2, [])

/-! ## Claim-side definitions: the spec's own wording of the derived
values, for comparison against the translated code above. -/

/-- The first status-field change found scanning history entries in
chronological order: the first entry holding a change whose field is
`"status"`, paired with that entry's first such change. -/
def firstStatusChange : List HistoryEntry → Option (HistoryEntry × ChangeItem)
  | [] => none
  | h :: rest =>
    match h.items.find? (fun item => item.field == "status") with
    | some item => some (h, item)
    | none => firstStatusChange rest

/-- Comments rendered in original order, the `n`-th (1-based) as the line
`# Entry n: {body}` followed by a newline, all concatenated. -/
def entriesSpec (comments : List IssueComment) : String :=
  String.join (comments.enum.map
    (fun p => "# Entry " ++ Nat.repr (p.1 + 1) ++ ": " ++ p.2.body ++ "\n"))

/-- One CSV line: comma-joined quoted fields. -/
def csvLineOf (cells : List String) : String :=
  String.intercalate "," (cells.map csvField)

/-- Lines each terminated by CRLF. -/
def crlfLines : List String → String
  | [] => ""
  | line :: rest => line ++ "\r\n" ++ crlfLines rest

/-- The archived object's content as the spec states it: the fixed
7-column header line followed by one CSV line per record in order. -/
def csvSpecContent (records : List TicketRecord) : String :=
  crlfLines (csvLineOf csvColumns ::
    records.map (fun r => csvLineOf (recordCells r)))

/-- The notification payload as the spec states it: routing metadata, the
composite request id, and the export window `[now - N days, now]` in
epoch seconds. -/
def exportMessage (business_id timestamp agent_id : String)
    (total_days : Nat) (now : Int) : QueueMessage :=
  { interaction_types := ["incidents"]
    channels := ["jira"]
    org_id := business_id
    request_id := agent_id ++ "-" ++ timestamp
    request_mode := ["historical"]
    requested_features := ["topic-classification"]
    start_date := Int.repr (now - (total_days : Int) * 86400)
    end_date := Int.repr now }

/-! ## Helper lemmas -/

theorem scanItems_eq_find (items : List ChangeItem) :
    scanItems items = items.find? (fun item => item.field == "status") := by
  induction items with
  | nil => rfl
  | cons item rest ih =>
    by_cases hf : item.field = "status"
    · simp [scanItems, List.find?_cons, hf]
    · simp [scanItems, List.find?_cons, hf, ih]

theorem resolutionScan_eq (hs : List HistoryEntry) :
    resolutionScan hs =
      match firstStatusChange hs with
      | none => ("", "")
      | some (h, item) =>
        if pyLower item.toString = "done" then
          (h.authorDisplayName, h.created)
        else ("", "") := by
  induction hs with
  | nil => rfl
  | cons h rest ih =>
    rw [resolutionScan, firstStatusChange, scanItems_eq_find]
    cases h.items.find? (fun item => item.field == "status") with
    | none => exact ih
    | some item => rfl

theorem firstStatusChange_mem (hs : List HistoryEntry) (h : HistoryEntry)
    (item : ChangeItem) (heq : firstStatusChange hs = some (h, item)) :
    h ∈ hs := by
  induction hs with
  | nil => exact absurd heq (by simp [firstStatusChange])
  | cons x rest ih =>
    rw [firstStatusChange] at heq
    cases hfind : x.items.find? (fun it => it.field == "status") with
    | none =>
      rw [hfind] at heq
      exact List.mem_cons_of_mem x (ih heq)
    | some it =>
      rw [hfind] at heq
      simp only [Option.some.injEq, Prod.mk.injEq] at heq
      obtain ⟨rfl, rfl⟩ := heq
      exact List.mem_cons_self x rest

theorem firstStatusChange_append (hs later : List HistoryEntry)
    (h : HistoryEntry) (item : ChangeItem)
    (heq : firstStatusChange hs = some (h, item)) :
    firstStatusChange (hs ++ later) = some (h, item) := by
  induction hs with
  | nil => exact absurd heq (by simp [firstStatusChange])
  | cons x rest ih =>
    rw [firstStatusChange] at heq
    rw [List.cons_append, firstStatusChange]
    cases hfind : x.items.find? (fun it => it.field == "status") with
    | none =>
      rw [hfind] at heq
      exact ih heq
    | some it =>
      rw [hfind] at heq
      exact heq

theorem buildRecord_eq (issue : Issue) (rec : TicketRecord)
    (h : buildRecord issue = some rec) :
    rec.channel_id = "jira" ∧ rec.title = issue.summary.getD "" ∧
    rec.original_summary = "" ∧ rec.description = issue.description.getD "" ∧
    rec.entries = concatComments issue.comments ∧
    rec.resolved_by = (resolutionScan issue.histories).1 ∧
    ((resolutionScan issue.histories).2 = "" → rec.resolved_timestamp = "") ∧
    ((resolutionScan issue.histories).2 ≠ "" →
      ∃ t, pyStrptimeEpoch (resolutionScan issue.histories).2 = some t ∧
        rec.resolved_timestamp = Int.repr t) := by
  simp only [buildRecord] at h
  by_cases hraw : (resolutionScan issue.histories).2 = ""
  · rw [if_neg (by simp [hraw])] at h
    cases h
    simp [hraw]
  · rw [if_pos hraw] at h
    cases hp : pyStrptimeEpoch (resolutionScan issue.histories).2 with
    | none => rw [hp] at h; cases h
    | some t =>
      rw [hp] at h
      cases h
      simp [hraw, hp]

theorem concatCommentsFrom_eq (i : Nat) (l : List IssueComment) :
    concatCommentsFrom (i + 1) l =
      String.join ((l.enumFrom i).map
        (fun p => "# Entry " ++ Nat.repr (p.1 + 1) ++ ": " ++ p.2.body ++ "\n")) := by
  induction l generalizing i with
  | nil => rfl
  | cons c rest ih =>
    have ihd := congrArg String.data (ih (i + 1))
    ext1
    rw [concatCommentsFrom]
    show (_ ++ (concatCommentsFrom (i + 1 + 1) rest)).data = _
    rw [String.data_append, ihd, List.enumFrom, List.map_cons]
    simp [String.data_join, String.data_append, List.flatten_cons]

theorem concatComments_eq_entriesSpec (l : List IssueComment) :
    concatComments l = entriesSpec l := by
  rw [concatComments, entriesSpec, List.enum, concatCommentsFrom_eq 0 l]

theorem toDigitsCore_length_ge (b : Nat) :
    ∀ (f n : Nat) (l : List Char), l.length ≤ (Nat.toDigitsCore b f n l).length := by
  intro f
  induction f with
  | zero => intro n l; exact Nat.le_refl _
  | succ f ih =>
    intro n l
    rw [Nat.toDigitsCore]
    split
    · exact Nat.le_succ _
    · exact Nat.le_trans (Nat.le_succ _) (ih (n / b) (Nat.digitChar (n % b) :: l))

theorem natRepr_ne_empty (n : Nat) : Nat.repr n ≠ "" := by
  intro h
  have hlen : 1 ≤ (Nat.toDigits 10 n).length := by
    rw [Nat.toDigits, Nat.toDigitsCore]
    split
    · exact Nat.le_refl _
    · exact toDigitsCore_length_ge 10 n (n / 10) [Nat.digitChar (n % 10)]
  have hdata : (Nat.repr n).data = Nat.toDigits 10 n := rfl
  rw [h] at hdata
  rw [← hdata] at hlen
  exact absurd hlen (by simp)

theorem intRepr_ne_empty (t : Int) : Int.repr t ≠ "" := by
  cases t with
  | ofNat n => exact natRepr_ne_empty n
  | negSucc n =>
    intro h
    have : (Int.repr (Int.negSucc n)).data = '-' :: (Nat.repr (n + 1)).data := by
      show (("-" ++ Nat.repr (n + 1)) : String).data = _
      rw [String.data_append]
      rfl
    rw [h] at this
    exact absurd this (by simp)

theorem csvContent_eq_spec (records : List TicketRecord) :
    csvContent records = csvSpecContent records := by
  have crlf_join : ∀ lines : List String,
      String.join (lines.map (fun s => s ++ "\r\n")) = crlfLines lines := by
    intro lines
    induction lines with
    | nil => rfl
    | cons s rest ih =>
      rw [List.map_cons, crlfLines, ← ih]
      ext1
      simp [String.data_join, String.data_append, List.flatten_cons]
  show csvRowString csvColumns
      ++ String.join (records.map (fun item => csvRowString (recordCells item))) =
    crlfLines (csvLineOf csvColumns ::
      records.map (fun r => csvLineOf (recordCells r)))
  rw [crlfLines]
  have hmap : records.map (fun item => csvRowString (recordCells item)) =
      (records.map (fun r => csvLineOf (recordCells r))).map
        (fun s => s ++ "\r\n") := by
    rw [List.map_map]
    rfl
  rw [hmap, crlf_join]
  rfl

theorem lookupBlob_insert (store : BlobStore) (name content p : String) :
    lookupBlob (insertBlob store name content) p =
      if p = name then some content else lookupBlob store p := by
  rfl

theorem upload_fresh (store : BlobStore) (business_id : String)
    (csv_data : List TicketRecord) (timestamp agent_id : String)
    (h : lookupBlob store (blobName business_id timestamp agent_id) = none) :
    upload_csv_to_azure store business_id csv_data timestamp agent_id =
      ((.success (business_id ++ "/interactions/incidents/jira"), 200),
        insertBlob store (blobName business_id timestamp agent_id)
          (csvContent csv_data)) := by
  rw [upload_csv_to_azure]
  rw [h]

theorem upload_collision (store : BlobStore) (business_id : String)
    (csv_data : List TicketRecord) (timestamp agent_id : String)
    (content : String)
    (h : lookupBlob store (blobName business_id timestamp agent_id) = some content) :
    upload_csv_to_azure store business_id csv_data timestamp agent_id =
      ((.error "New file cannot be created in Azure", 500), store) := by
  rw [upload_csv_to_azure]
  rw [h]
  rfl

theorem fetch_records_of_core (search : Except Unit (List Issue))
    (recs : List TicketRecord)
    (h : fetch_jira_issues search = (.records recs, 200)) :
    fetchCore search = .ok recs := by
  rw [fetch_jira_issues] at h
  cases hc : fetchCore search with
  | error e =>
    rw [hc] at h
    cases h
  | ok v =>
    rw [hc] at h
    simp only [Prod.mk.injEq, Payload.records.injEq] at h
    rw [h.1]

theorem process_fetch_fail (search : Except Unit (List Issue))
    (store : BlobStore) (te : Option String) (td : Nat) (now : Int)
    (bid ts aid msg : String) (code : Nat)
    (hc : fetchCore search = .error (msg, code)) :
    process_issues search store te td now bid ts aid =
      ((.error msg, code), store, []) := by
  rw [process_issues, hc]

theorem process_archive_ok (search : Except Unit (List Issue))
    (store store2 : BlobStore) (te : Option String) (td : Nat) (now : Int)
    (bid ts aid : String) (recs : List TicketRecord) (resp : Payload)
    (hc : fetchCore search = .ok recs)
    (hu : upload_csv_to_azure store bid recs ts aid = ((resp, 200), store2)) :
    process_issues search store te td now bid ts aid =
      ((resp, 200), store2, [(exportMessage bid ts aid td now, te)]) := by
  simp only [process_issues, hc, hu]
  rfl

theorem process_archive_fail (search : Except Unit (List Issue))
    (store store2 : BlobStore) (te : Option String) (td : Nat) (now : Int)
    (bid ts aid : String) (recs : List TicketRecord) (resp : Payload)
    (code : Nat) (hne : code ≠ 200)
    (hc : fetchCore search = .ok recs)
    (hu : upload_csv_to_azure store bid recs ts aid = ((resp, code), store2)) :
    process_issues search store te td now bid ts aid =
      ((resp, code), store2, []) := by
  simp only [process_issues, hc, hu]
  rw [if_neg hne]

theorem mapM_eq_none_of_mem (issues : List Issue) (issue : Issue)
    (hmem : issue ∈ issues) (hnone : buildRecord issue = none) :
    issues.mapM buildRecord = none := by
  induction issues with
  | nil => cases hmem
  | cons x rest ih =>
    rw [List.mapM_cons]
    rcases List.mem_cons.mp hmem with rfl | hmem2
    · rw [hnone]; rfl
    · cases hx : buildRecord x with
      | none => rfl
      | some r =>
        rw [ih hmem2]
        rfl

theorem fetch_error_of_core (search : Except Unit (List Issue))
    (msg : String) (code : Nat)
    (h : fetch_jira_issues search = (.error msg, code)) :
    fetchCore search = .error (msg, code) := by
  rw [fetch_jira_issues] at h
  cases hc : fetchCore search with
  | error e =>
    obtain ⟨m, c⟩ := e
    rw [hc] at h
    simp only [Prod.mk.injEq, Payload.error.injEq] at h
    rw [h.1, h.2]
  | ok v =>
    rw [hc] at h
    simp at h

theorem fetchCore_error_code (search : Except Unit (List Issue))
    (msg : String) (code : Nat)
    (h : fetchCore search = .error (msg, code)) :
    code = 401 ∨ code = 404 := by
  cases search with
  | error u =>
    rw [fetchCore] at h
    simp only [Except.error.injEq, Prod.mk.injEq] at h
    exact Or.inl h.2.symm
  | ok issues =>
    rw [fetchCore] at h
    split at h
    · simp only [Except.error.injEq, Prod.mk.injEq] at h
      exact Or.inr h.2.symm
    · cases hm : issues.mapM buildRecord with
      | none =>
        rw [hm] at h
        simp only [Except.error.injEq, Prod.mk.injEq] at h
        exact Or.inl h.2.symm
      | some v =>
        rw [hm] at h
        cases h

/-! ## The claims -/

/-- C1: for every ticket the extractor scans history entries in
chronological order and inspects only the first status-field change it
finds: `resolved_by`/`resolved_timestamp` are populated (with that
entry's author display name and the epoch-seconds conversion of its
creation time, the entry carrying a creation time as the tracker
interface provides) iff that first status change's new value equals
"done" case-insensitively; on any other value both fields stay empty even
when later history entries (e.g. holding a "done" transition) follow, and
with no status change at all both fields are empty strings. -/
theorem c1_resolution_first_status_only (issue : Issue) (rec : TicketRecord)
    (hrec : buildRecord issue = some rec) :
    (firstStatusChange issue.histories = none →
      rec.resolved_by = "" ∧ rec.resolved_timestamp = "") ∧
    (∀ hist item, firstStatusChange issue.histories = some (hist, item) →
      (pyLower item.toString = "done" → hist.created ≠ "" →
        rec.resolved_by = hist.authorDisplayName ∧
        ∃ t, pyStrptimeEpoch hist.created = some t ∧
          rec.resolved_timestamp = Int.repr t) ∧
      (pyLower item.toString ≠ "done" →
        rec.resolved_by = "" ∧ rec.resolved_timestamp = "")) ∧
    (∀ hist item later, firstStatusChange issue.histories = some (hist, item) →
      resolutionScan (issue.histories ++ later) =
        resolutionScan issue.histories) := by
  obtain ⟨-, -, -, -, -, hrb, hts0, hts⟩ := buildRecord_eq issue rec hrec
  refine ⟨?_, ?_, ?_⟩
  · intro hnone
    have hscan : resolutionScan issue.histories = ("", "") := by
      rw [resolutionScan_eq, hnone]
    exact ⟨by rw [hrb, hscan], hts0 (by rw [hscan])⟩
  · intro hist item hsome
    have hscan : resolutionScan issue.histories =
        if pyLower item.toString = "done" then
          (hist.authorDisplayName, hist.created)
        else ("", "") := by
      rw [resolutionScan_eq, hsome]
    constructor
    · intro hdone hcr
      rw [if_pos hdone] at hscan
      refine ⟨by rw [hrb, hscan], ?_⟩
      have := hts (by rw [hscan]; exact hcr)
      rw [hscan] at this
      exact this
    · intro hnd
      rw [if_neg hnd] at hscan
      exact ⟨by rw [hrb, hscan], hts0 (by rw [hscan])⟩
  · intro hist item later hsome
    rw [resolutionScan_eq (issue.histories ++ later),
      firstStatusChange_append issue.histories later hist item hsome,
      resolutionScan_eq issue.histories, hsome]

/-- C1 witness: a ticket whose only status change is todo→Done by Alice
at 2024-01-02T03:04:05 UTC resolves to ("Alice", "1704164645"). -/
theorem c1_resolution_first_status_only_witness :
    buildRecord ⟨some "Login broken", none, [],
        [⟨"Alice", "2024-01-02T03:04:05.000000+0000",
          [⟨"status", "Done"⟩]⟩]⟩ =
      some ⟨"jira", "Login broken", "", "", "", "Alice", "1704164645"⟩ ∧
    (⟨"jira", "Login broken", "", "", "", "Alice", "1704164645"⟩ :
      TicketRecord).resolved_by = "Alice" ∧
    (⟨"jira", "Login broken", "", "", "", "Alice", "1704164645"⟩ :
      TicketRecord).resolved_timestamp = "1704164645" := by
  have h := c1_resolution_first_status_only
    ⟨some "Login broken", none, [],
      [⟨"Alice", "2024-01-02T03:04:05.000000+0000", [⟨"status", "Done"⟩]⟩]⟩
    ⟨"jira", "Login broken", "", "", "", "Alice", "1704164645"⟩ rfl
  obtain ⟨hby, ⟨t, hp, hts⟩⟩ :=
    (h.2.1 ⟨"Alice", "2024-01-02T03:04:05.000000+0000", [⟨"status", "Done"⟩]⟩
      ⟨"status", "Done"⟩ rfl).1 rfl (by decide)
  have ht : t = 1704164645 := by
    have : some t = some 1704164645 := by rw [← hp]; rfl
    exact Option.some.inj this
  exact ⟨rfl, hby, by rw [hts, ht]; rfl⟩

/-- C2 counterexample: with a single comment "hi" the emitted `entries`
string is "# Entry 1: hi\n": each line carries a leading "# " before the
"Entry N:" label and a trailing newline follows the last entry, so the
claimed rendering ("Entry N:"-labelled comments joined by newlines,
here "Entry 1: hi") does not match. -/
theorem c2_entries_counterexample :
    (buildRecord ⟨none, none, [⟨"hi"⟩], []⟩).map TicketRecord.entries =
      some "# Entry 1: hi\n" ∧
    ("# Entry 1: hi\n" : String) ≠ "Entry 1: hi" ∧
    ("# Entry 1: hi\n" : String) ≠ "# Entry 1: hi" :=
  ⟨rfl, by decide, by decide⟩

/-- C2 (amended): for every ticket the emitted `entries` field equals the
ticket's comments rendered in original creation order, the `n`-th comment
(1-based) rendered as `# Entry n: {body}` with a newline terminator after
every entry including the last, and equals the empty string when the
ticket has zero comments. -/
theorem c2_entries_rendering (issue : Issue) (rec : TicketRecord)
    (hrec : buildRecord issue = some rec) :
    rec.entries = entriesSpec issue.comments ∧
    (issue.comments = [] → rec.entries = "") := by
  obtain ⟨-, -, -, -, hent, -, -, -⟩ := buildRecord_eq issue rec hrec
  constructor
  · rw [hent, concatComments_eq_entriesSpec]
  · intro hc
    rw [hent, hc]
    rfl

/-- C2 witness: two comments render as two labelled, newline-terminated
entries. -/
theorem c2_entries_rendering_witness :
    (buildRecord ⟨none, none, [⟨"first note"⟩, ⟨"second note"⟩], []⟩).map
        TicketRecord.entries =
      some "# Entry 1: first note\n# Entry 2: second note\n" ∧
    entriesSpec [⟨"first note"⟩, ⟨"second note"⟩] =
      "# Entry 1: first note\n# Entry 2: second note\n" := by
  have h := c2_entries_rendering ⟨none, none, [⟨"first note"⟩, ⟨"second note"⟩], []⟩
    ⟨"jira", "", "", "", "# Entry 1: first note\n# Entry 2: second note\n", "", ""⟩ rfl
  exact ⟨rfl, by rw [← h.1]⟩

/-- C3: a run whose tracker query returns zero tickets yields the
NotFound failure (error payload "No tickets found", status 404), never
an empty success list, and performs no archive write and no queue send:
the orchestrator returns with the blob container unchanged and an empty
send list. -/
theorem c3_zero_tickets_not_found (store : BlobStore) (te : Option String)
    (td : Nat) (now : Int) (bid ts aid : String) :
    fetch_jira_issues (.ok []) = (.error "No tickets found", 404) ∧
    process_issues (.ok []) store te td now bid ts aid =
      ((.error "No tickets found", 404), store, []) :=
  ⟨rfl, rfl⟩

/-- C4: the orchestrator short-circuits: when extraction fails its error
payload and status code are returned unchanged with no archive write and
no queue send; when archiving fails no queue message is sent and the
archiver's error payload and status code are returned unchanged; on
archive success the QueueMessage is constructed and sent and the
archiver's success payload and 200 status are returned unchanged. -/
theorem c4_orchestrator_short_circuit (search : Except Unit (List Issue))
    (store : BlobStore) (te : Option String) (td : Nat) (now : Int)
    (bid ts aid : String) :
    (∀ msg code, fetch_jira_issues search = (.error msg, code) →
      process_issues search store te td now bid ts aid =
        ((.error msg, code), store, [])) ∧
    (∀ recs msg code2 store2,
      fetch_jira_issues search = (.records recs, 200) →
      upload_csv_to_azure store bid recs ts aid = ((.error msg, code2), store2) →
      process_issues search store te td now bid ts aid =
        ((.error msg, code2), store2, [])) ∧
    (∀ recs folder store2,
      fetch_jira_issues search = (.records recs, 200) →
      upload_csv_to_azure store bid recs ts aid = ((.success folder, 200), store2) →
      process_issues search store te td now bid ts aid =
        ((.success folder, 200), store2,
          [(exportMessage bid ts aid td now, te)])) := by
  refine ⟨?_, ?_, ?_⟩
  · intro msg code hf
    exact process_fetch_fail search store te td now bid ts aid msg code
      (fetch_error_of_core search msg code hf)
  · intro recs msg code2 store2 hf hu
    have hc := fetch_records_of_core search recs hf
    have h500 : code2 ≠ 200 := by
      cases hl : lookupBlob store (blobName bid ts aid) with
      | none =>
        rw [upload_fresh store bid recs ts aid hl] at hu
        simp at hu
      | some c =>
        rw [upload_collision store bid recs ts aid c hl] at hu
        simp only [Prod.mk.injEq, Payload.error.injEq] at hu
        rw [← hu.1.2]
        decide
    exact process_archive_fail search store store2 te td now bid ts aid recs
      (.error msg) code2 h500 hc hu
  · intro recs folder store2 hf hu
    exact process_archive_ok search store store2 te td now bid ts aid recs
      (.success folder) (fetch_records_of_core search recs hf) hu

/-- C4 witness: a run whose tracker connection fails returns the
extractor's 401 failure unchanged, with no blob written and no queue
send. -/
theorem c4_orchestrator_short_circuit_witness :
    process_issues (.error ()) [] none 30 1700000000 "T" "123" "A" =
      ((.error "Unable to login to JIRA", 401), [], []) :=
  (c4_orchestrator_short_circuit (.error ()) [] none 30 1700000000
    "T" "123" "A").1 "Unable to login to JIRA" 401 rfl

/-- C5: after a successful archive, a failing queue transport is
swallowed: the orchestrator still returns the archiver's success payload
with status 200, identically to a run with a working transport, and the
single send attempt records the swallowed transport error. -/
theorem c5_notifier_failure_swallowed (search : Except Unit (List Issue))
    (store store2 : BlobStore) (td : Nat) (now : Int)
    (bid ts aid err folder : String) (recs : List TicketRecord)
    (hf : fetch_jira_issues search = (.records recs, 200))
    (hu : upload_csv_to_azure store bid recs ts aid =
      ((.success folder, 200), store2)) :
    (process_issues search store (some err) td now bid ts aid).1 =
      (.success folder, 200) ∧
    (process_issues search store (some err) td now bid ts aid).1 =
      (process_issues search store none td now bid ts aid).1 ∧
    (process_issues search store (some err) td now bid ts aid).2.2 =
      [(exportMessage bid ts aid td now, some err)] := by
  have hc := fetch_records_of_core search recs hf
  rw [process_archive_ok search store store2 (some err) td now bid ts aid recs
      (.success folder) hc hu,
    process_archive_ok search store store2 none td now bid ts aid recs
      (.success folder) hc hu]
  exact ⟨rfl, rfl, rfl⟩

/-- C5 witness: one ticket, fresh container, transport raising "boom":
the run still reports the archiver's success payload and 200. -/
theorem c5_notifier_failure_swallowed_witness :
    (process_issues (.ok [⟨some "t", none, [], []⟩]) [] (some "boom")
        30 1700000000 "T" "123" "A").1 =
      (.success "T/interactions/incidents/jira", 200) ∧
    (process_issues (.ok [⟨some "t", none, [], []⟩]) [] (some "boom")
        30 1700000000 "T" "123" "A").1 =
      (process_issues (.ok [⟨some "t", none, [], []⟩]) [] none
        30 1700000000 "T" "123" "A").1 :=
  ⟨(c5_notifier_failure_swallowed (.ok [⟨some "t", none, [], []⟩]) []
      [("T/interactions/incidents/jira/request-T-A-123.csv",
        "channel_id,title,original_summary,description,entries,resolved_by,resolved_timestamp\r\njira,t,,,,,\r\n")]
      30 1700000000 "T" "123" "A" "boom" "T/interactions/incidents/jira"
      [⟨"jira", "t", "", "", "", "", ""⟩] rfl rfl).1,
    (c5_notifier_failure_swallowed (.ok [⟨some "t", none, [], []⟩]) []
      [("T/interactions/incidents/jira/request-T-A-123.csv",
        "channel_id,title,original_summary,description,entries,resolved_by,resolved_timestamp\r\njira,t,,,,,\r\n")]
      30 1700000000 "T" "123" "A" "boom" "T/interactions/incidents/jira"
      [⟨"jira", "t", "", "", "", "", ""⟩] rfl rfl).2.1⟩

/-- C6: the archiver never overwrites: when the computed blob path is
already occupied the write (requested with no-overwrite semantics) fails
with an error payload and status 500, and the existing object is left
unmodified. -/
theorem c6_no_overwrite (store : BlobStore) (bid ts aid content : String)
    (recs : List TicketRecord)
    (h : lookupBlob store (blobName bid ts aid) = some content) :
    upload_csv_to_azure store bid recs ts aid =
      ((.error "New file cannot be created in Azure", 500), store) ∧
    lookupBlob (upload_csv_to_azure store bid recs ts aid).2
      (blobName bid ts aid) = some content := by
  have hc := upload_collision store bid recs ts aid content h
  refine ⟨hc, ?_⟩
  rw [hc]
  exact h

/-- C6 witness: uploading to a container already holding the computed
path fails with 500 and leaves the old object in place. -/
theorem c6_no_overwrite_witness :
    upload_csv_to_azure
        [("T/interactions/incidents/jira/request-T-A-123.csv", "old")]
        "T" [] "123" "A" =
      ((.error "New file cannot be created in Azure", 500),
        [("T/interactions/incidents/jira/request-T-A-123.csv", "old")]) ∧
    lookupBlob (upload_csv_to_azure
        [("T/interactions/incidents/jira/request-T-A-123.csv", "old")]
        "T" [] "123" "A").2
      "T/interactions/incidents/jira/request-T-A-123.csv" = some "old" :=
  c6_no_overwrite
    [("T/interactions/incidents/jira/request-T-A-123.csv", "old")]
    "T" "123" "A" "old" [] rfl

/-- C7: exactly when archiving succeeds (the run's status is 200), one
QueueMessage is constructed and sent, carrying the interaction types,
channel list, tenant id, composite request id agent-timestamp, mode,
requested features, and an export window of epoch-second integers with
start_date = end_date - N*86400 and end_date the orchestrator's own
invocation clock, independent of the extractor's query; on any non-200
outcome no message is sent. -/
theorem c7_queue_message_exactly_on_success (search : Except Unit (List Issue))
    (store : BlobStore) (te : Option String) (td : Nat) (now : Int)
    (bid ts aid : String) :
    ((process_issues search store te td now bid ts aid).1.2 = 200 →
      (process_issues search store te td now bid ts aid).2.2 =
        [({ interaction_types := ["incidents"]
            channels := ["jira"]
            org_id := bid
            request_id := aid ++ "-" ++ ts
            request_mode := ["historical"]
            requested_features := ["topic-classification"]
            start_date := Int.repr (now - (td : Int) * 86400)
            end_date := Int.repr now }, te)]) ∧
    ((process_issues search store te td now bid ts aid).1.2 ≠ 200 →
      (process_issues search store te td now bid ts aid).2.2 = []) := by
  cases hc : fetchCore search with
  | error e =>
    obtain ⟨msg, code⟩ := e
    have hp := process_fetch_fail search store te td now bid ts aid msg code hc
    rw [hp]
    constructor
    · intro h200
      rcases fetchCore_error_code search msg code hc with h4 | h4 <;>
        (rw [h4] at h200; cases h200)
    · intro h
      rfl
  | ok recs =>
    rcases hU : upload_csv_to_azure store bid recs ts aid with ⟨⟨resp, code2⟩, store2⟩
    by_cases hcode : code2 = 200
    · subst hcode
      have hp := process_archive_ok search store store2 te td now bid ts aid
        recs resp hc hU
      rw [hp]
      constructor
      · intro h200
        rfl
      · intro hne
        exact absurd rfl hne
    · have hp := process_archive_fail search store store2 te td now bid ts aid
        recs resp code2 hcode hc hU
      rw [hp]
      constructor
      · intro h200
        exact absurd h200 hcode
      · intro hne
        rfl

/-- C7 witness: a successful one-ticket run with lookback 30 days at
epoch second 1700000000 sends exactly one message whose window is
[1697408000, 1700000000] and whose request id is "A-123". -/
theorem c7_queue_message_exactly_on_success_witness :
    (process_issues (.ok [⟨some "t", none, [], []⟩]) [] none
        30 1700000000 "T" "123" "A").2.2 =
      [({ interaction_types := ["incidents"]
          channels := ["jira"]
          org_id := "T"
          request_id := "A-123"
          request_mode := ["historical"]
          requested_features := ["topic-classification"]
          start_date := "1697408000"
          end_date := "1700000000" }, none)] :=
  (c7_queue_message_exactly_on_success (.ok [⟨some "t", none, [], []⟩]) []
    none 30 1700000000 "T" "123" "A").1 rfl

theorem blobName_flat (bid ts aid : String) :
    blobName bid ts aid =
      bid ++ "/interactions/incidents/jira/request-" ++ bid ++ "-" ++ aid
        ++ "-" ++ ts ++ ".csv" := by
  ext1
  simp only [blobName, String.data_append, List.append_assoc]
  rfl

/-- C8: for every tenant id, agent id, timestamp string and record
sequence (written to a fresh path), the archiver writes exactly one
object, at the deterministic path
`{tenant}/interactions/incidents/jira/request-{tenant}-{agent}-{timestamp}.csv`,
whose content is the fixed 7-column header followed by one CSV row per
record in sequence order with standard quoting of embedded commas,
newlines and quotes; every other path of the container is untouched. -/
theorem c8_archive_path_and_content (store : BlobStore) (bid ts aid : String)
    (recs : List TicketRecord)
    (h : lookupBlob store (blobName bid ts aid) = none) :
    (upload_csv_to_azure store bid recs ts aid).1 =
      (.success (bid ++ "/interactions/incidents/jira"), 200) ∧
    blobName bid ts aid =
      bid ++ "/interactions/incidents/jira/request-" ++ bid ++ "-" ++ aid
        ++ "-" ++ ts ++ ".csv" ∧
    (∀ p, lookupBlob (upload_csv_to_azure store bid recs ts aid).2 p =
      if p = blobName bid ts aid then some (csvSpecContent recs)
      else lookupBlob store p) := by
  have hf := upload_fresh store bid recs ts aid h
  refine ⟨by rw [hf], blobName_flat bid ts aid, ?_⟩
  intro p
  rw [hf]
  show lookupBlob (insertBlob store (blobName bid ts aid) (csvContent recs)) p = _
  rw [lookupBlob_insert, csvContent_eq_spec]

/-- C8 witness: a record with an embedded comma, quote and newline is
archived at the computed path with CSV-quoted cells, and an unrelated
path stays absent. -/
theorem c8_archive_path_and_content_witness :
    lookupBlob (upload_csv_to_azure []
        "T" [⟨"jira", "a,b", "", "say \"hi\"", "line1\nline2", "", "7"⟩]
        "123" "A").2
      "T/interactions/incidents/jira/request-T-A-123.csv" =
      some "channel_id,title,original_summary,description,entries,resolved_by,resolved_timestamp\r\njira,\"a,b\",,\"say \"\"hi\"\"\",\"line1\nline2\",,7\r\n" ∧
    lookupBlob (upload_csv_to_azure []
        "T" [⟨"jira", "a,b", "", "say \"hi\"", "line1\nline2", "", "7"⟩]
        "123" "A").2 "T/other.csv" = none := by
  have h := c8_archive_path_and_content []
    "T" "123" "A" [⟨"jira", "a,b", "", "say \"hi\"", "line1\nline2", "", "7"⟩] rfl
  exact ⟨(h.2.2 "T/interactions/incidents/jira/request-T-A-123.csv").trans (by rfl),
    (h.2.2 "T/other.csv").trans (by rfl)⟩

/-- C9 counterexample: a first status change to "done" whose history
entry carries an empty author display name yields a record with
`resolved_by = ""` while `resolved_timestamp` is populated, so the two
fields are not empty-if-and-only-if each other. -/
theorem c9_fields_counterexample :
    buildRecord ⟨none, none, [],
        [⟨"", "2024-01-02T03:04:05.000000+0000", [⟨"status", "done"⟩]⟩]⟩ =
      some ⟨"jira", "", "", "", "", "", "1704164645"⟩ ∧
    ("1704164645" : String) ≠ "" :=
  ⟨rfl, by decide⟩

/-- C9 (amended): in every record the extractor emits from a ticket whose
history entries all carry a non-empty author display name and a non-empty
creation time, `resolved_by` is the empty string iff
`resolved_timestamp` is (both set together by the same "done" history
entry or both left empty), and a non-empty `resolved_timestamp` is the
decimal string of an integer. -/
theorem c9_fields_populated_together (issue : Issue) (rec : TicketRecord)
    (hrec : buildRecord issue = some rec)
    (hwf : ∀ hist ∈ issue.histories,
      hist.authorDisplayName ≠ "" ∧ hist.created ≠ "") :
    (rec.resolved_by = "" ↔ rec.resolved_timestamp = "") ∧
    (rec.resolved_timestamp ≠ "" →
      ∃ t : Int, rec.resolved_timestamp = Int.repr t) := by
  obtain ⟨-, -, -, -, -, hrb, hts0, hts⟩ := buildRecord_eq issue rec hrec
  cases hfs : firstStatusChange issue.histories with
  | none =>
    have hscan : resolutionScan issue.histories = ("", "") := by
      rw [resolutionScan_eq, hfs]
    have h1 : rec.resolved_by = "" := by rw [hrb, hscan]
    have h2 : rec.resolved_timestamp = "" := hts0 (by rw [hscan])
    exact ⟨by rw [h1, h2], fun hne => absurd h2 hne⟩
  | some pair =>
    obtain ⟨hist, item⟩ := pair
    obtain ⟨hdn, hcr⟩ := hwf hist (firstStatusChange_mem issue.histories hist item hfs)
    have hscan : resolutionScan issue.histories =
        if pyLower item.toString = "done" then
          (hist.authorDisplayName, hist.created)
        else ("", "") := by
      rw [resolutionScan_eq, hfs]
    by_cases hdone : pyLower item.toString = "done"
    · rw [if_pos hdone] at hscan
      obtain ⟨t, hp, hrt⟩ := hts (by rw [hscan]; exact hcr)
      have h1 : rec.resolved_by = hist.authorDisplayName := by rw [hrb, hscan]
      refine ⟨⟨fun hby => ?_, fun hts' => ?_⟩, fun _ => ⟨t, hrt⟩⟩
      · rw [h1] at hby
        exact absurd hby hdn
      · rw [hrt] at hts'
        exact absurd hts' (intRepr_ne_empty t)
    · rw [if_neg hdone] at hscan
      have h1 : rec.resolved_by = "" := by rw [hrb, hscan]
      have h2 : rec.resolved_timestamp = "" := hts0 (by rw [hscan])
      exact ⟨by rw [h1, h2], fun hne => absurd h2 hne⟩

/-- C9 witness: a ticket resolved by Alice yields both fields non-empty:
the iff and the integer-rendering hold at a concrete record. -/
theorem c9_fields_populated_together_witness :
    ((⟨"jira", "", "", "", "", "Alice", "1704164645"⟩ :
        TicketRecord).resolved_by = "" ↔
      (⟨"jira", "", "", "", "", "Alice", "1704164645"⟩ :
        TicketRecord).resolved_timestamp = "") ∧
    ((⟨"jira", "", "", "", "", "Alice", "1704164645"⟩ :
        TicketRecord).resolved_timestamp ≠ "" →
      ∃ t : Int,
        (⟨"jira", "", "", "", "", "Alice", "1704164645"⟩ :
          TicketRecord).resolved_timestamp = Int.repr t) :=
  c9_fields_populated_together
    ⟨none, none, [],
      [⟨"Alice", "2024-01-02T03:04:05.000000+0000", [⟨"status", "done"⟩]⟩]⟩
    ⟨"jira", "", "", "", "", "Alice", "1704164645"⟩ rfl (by decide)

/-- C10: every exception inside extraction — including a per-ticket
record derivation failure after a successful query, such as a history
creation time that does not parse as ISO-8601 with microseconds and
offset — is reported as the same generic authentication failure (error
payload "Unable to login to JIRA", status 401) the tracker-login branch
produces, so a malformed-data run is indistinguishable from a credential
failure at the public interface. -/
theorem c10_generic_auth_failure (issues : List Issue)
    (h : ∃ issue ∈ issues, buildRecord issue = none) :
    fetch_jira_issues (.ok issues) = fetch_jira_issues (.error ()) ∧
    fetch_jira_issues (.ok issues) = (.error "Unable to login to JIRA", 401) := by
  obtain ⟨issue, hmem, hnone⟩ := h
  have hne : issues.length ≠ 0 := by
    cases issues
    · cases hmem
    · simp
  have hcore : fetchCore (.ok issues) = .error ("Unable to login to JIRA", 401) := by
    rw [fetchCore, if_neg hne, mapM_eq_none_of_mem issues issue hmem hnone]
  constructor
  · rw [fetch_jira_issues, fetch_jira_issues, hcore]
    rfl
  · rw [fetch_jira_issues, hcore]

/-- C10 witness: a ticket resolved to "Done" whose history creation time
is not a parseable timestamp makes the whole extraction fail exactly like
a credential failure. -/
theorem c10_generic_auth_failure_witness :
    fetch_jira_issues (.ok [⟨none, none, [],
        [⟨"Alice", "not-a-timestamp", [⟨"status", "Done"⟩]⟩]⟩]) =
      (.error "Unable to login to JIRA", 401) :=
  (c10_generic_auth_failure
    [⟨none, none, [], [⟨"Alice", "not-a-timestamp", [⟨"status", "Done"⟩]⟩]⟩]
    ⟨⟨none, none, [], [⟨"Alice", "not-a-timestamp", [⟨"status", "Done"⟩]⟩]⟩,
      List.Mem.head _, rfl⟩).2

end ResqJira
